import Mathlib

/-!
# CEP lookup race: two provider adapters and a `select` coordinator

A shallow embedding of `src/main.go`.

* `CEP`, `ViaCepResponse`, `BrasilApiResponse`, `BrasilApiError` are the Go structs.
* `Sprintf` is the `%s` fragment of `fmt.Sprintf`, the only verb the program uses.
* The library calls whose code is outside the repository (`http.Get`, `io.ReadAll`,
  `json.Unmarshal`, `json.Decoder.Decode`) are the fields of `Lib`: an adapter is a
  function of what those calls return.
* An adapter goroutine is embedded as the list of effects it performs in program
  order when it is allowed to run to its end (`Effect`): writes to standard output,
  the send on its channel, the deferred `response.Body.Close()` and `close(ch)`.
* The coordinator is embedded as a function of the sequence of events in the order
  in which the blocked `select` of `main` gets to observe them (`Event`).
-/

namespace CepRace

/-! ## Data model -/

/-- Go: `type CEP struct`. The default value is Go's zero value `CEP{}`. -/
structure CEP where
  Cep : String := ""
  Rua : String := ""
  Bairro : String := ""
  Cidade : String := ""
  Estado : String := ""
deriving DecidableEq

/-- Go: `type ViaCepResponse struct`. -/
structure ViaCepResponse where
  Cep : String := ""
  Logradouro : String := ""
  Complemento : String := ""
  Bairro : String := ""
  Localidade : String := ""
  Uf : String := ""
  Ibge : String := ""
  Gia : String := ""
  Ddd : String := ""
  Siafi : String := ""
deriving DecidableEq

/-- Go: `type BrasilApiResponse struct`. -/
structure BrasilApiResponse where
  Cep : String := ""
  State : String := ""
  City : String := ""
  Neighborhood : String := ""
  Street : String := ""
deriving DecidableEq

/-- Go: `type BrasilApiError struct`. The Go field `Type` (JSON key `type`) is
`Type_` here, `Type` being reserved. -/
structure BrasilApiError where
  Name : String := ""
  Message : String := ""
  Type_ : String := ""
deriving DecidableEq

/-! ## `fmt.Sprintf`, `%s` fragment -/

/-- Go's rendering of operands left over when the format string is exhausted:
`%!(EXTRA string=a, string=b)`. -/
def sprintfExtra (args : List String) : List Char :=
  ("%!(EXTRA " ++ ", ".intercalate (args.map fun a => "string=" ++ a) ++ ")").data

/-- The format loop of `fmt.Sprintf` for string operands and the verb `%s`:
`%s` consumes the next operand and inserts it unchanged, a `%s` without operand
prints `%!s(MISSING)`, every other character is copied. -/
def sprintfAux : List Char → List String → List Char
  | '%' :: 's' :: fmt, a :: args => a.data ++ sprintfAux fmt args
  | '%' :: 's' :: fmt, [] => "%!s(MISSING)".data ++ sprintfAux fmt []
  | c :: fmt, args => c :: sprintfAux fmt args
  | [], [] => []
  | [], a :: args => sprintfExtra (a :: args)

/-- Go: `fmt.Sprintf(format, args...)` with string operands. -/
def Sprintf (format : String) (args : List String) : String :=
  ⟨sprintfAux format.data args⟩

/-- Go: `func (cep CEP) String() string`. -/
def CEP.String (cep : CEP) : String :=
  Sprintf "CEP: %s\nRua: %s\nBairro: %s\nCidade: %s\nEstado: %s\n"
    [cep.Cep, cep.Rua, cep.Bairro, cep.Cidade, cep.Estado]

/-! ## Effects of a goroutine and the library calls -/

/-- What a goroutine of this program does to the outside, in program order. -/
inductive Effect where
  /-- Go: `fmt.Printf` and `fmt.Println`, the text written to standard output. -/
  | stdout (s : String)
  /-- Go: the builtin `println`, the text written to standard error. -/
  | stderr (s : String)
  /-- Go: `ch <- v`. -/
  | send (v : CEP)
  /-- Go: `close(ch)`. -/
  | close
  /-- Go: `response.Body.Close()`. -/
  | bodyClose
deriving DecidableEq

/-- The results of the library calls an adapter makes. `Resp` is `*http.Response`,
a `[]byte` is a `String`, a Go `error` is the `String` that `%s` prints for it. The
decoders return the struct they fill, starting from its zero value. -/
structure Lib (Resp : Type) where
  /-- Go: `http.Get(url)`. -/
  httpGet : String → Except String Resp
  /-- Go: `io.ReadAll(response.Body)`. -/
  readAll : Resp → Except String String
  /-- Go: `json.Unmarshal(data, &err_json)` with `err_json := BrasilApiError{}`. -/
  unmarshalBrasilApiError : String → Except String BrasilApiError
  /-- Go: `json.Unmarshal(data, &response_json)` with `response_json := BrasilApiResponse{}`. -/
  unmarshalBrasilApiResponse : String → Except String BrasilApiResponse
  /-- Go: `json.NewDecoder(response.Body).Decode(&response_json)` with
  `response_json := ViaCepResponse{}`. -/
  decodeViaCepResponse : Resp → Except String ViaCepResponse

/-! ## The adapters -/

/-- Go: `func fetch_cep_brasilapi(cep string, ch chan<- CEP)`. The result is the
effects of one run. Both `defer`s are registered after the error check of
`http.Get`; they run, last registered first, on every later return. -/
def fetch_cep_brasilapi {Resp : Type} (lib : Lib Resp) (cep : String) : List Effect :=
  let url := Sprintf "https://brasilapi.com.br/api/cep/v1/%s" [cep]
  match lib.httpGet url with
  | .error err => [.stdout (Sprintf "Error fetching cep using BrasilAPI: %s\n" [err])]
  | .ok response =>
    let deferred : List Effect := [.bodyClose, .close]
    let body : List Effect :=
      match lib.readAll response with
      | .error err => [.stdout (Sprintf "Error reading response from BrasilAPI: %s\n" [err])]
      | .ok data =>
        match lib.unmarshalBrasilApiError data with
        | .error err => [.stdout (Sprintf "Error decoding response from BrasilAPI: %s\n" [err])]
        | .ok err_json =>
          if err_json.Type_ = "service_error" then []
          else
            match lib.unmarshalBrasilApiResponse data with
            | .error err =>
              [.stdout (Sprintf "Error decoding response from BrasilAPI: %s\n" [err])]
            | .ok response_json =>
              [.send
                { Cep := response_json.Cep
                  Rua := response_json.Street
                  Bairro := response_json.Neighborhood
                  Cidade := response_json.City
                  Estado := response_json.State }]
    body ++ deferred

/-- Go: `func fetch_cep_viacep(cep string, ch chan<- CEP)`. The result is the effects
of one run. Both `defer`s are registered after the error check of `http.Get`. -/
def fetch_cep_viacep {Resp : Type} (lib : Lib Resp) (cep : String) : List Effect :=
  let url := Sprintf "https://viacep.com.br/ws/%s/json/" [cep]
  match lib.httpGet url with
  | .error err => [.stdout (Sprintf "Error fetching cep using ViaCEP: %s\n" [err])]
  | .ok response =>
    let deferred : List Effect := [.bodyClose, .close]
    let body : List Effect :=
      match lib.decodeViaCepResponse response with
      | .error err => [.stdout (Sprintf "Error decoding response from ViaCEP: %s\n" [err])]
      | .ok response_json =>
        [.send
          { Cep := response_json.Cep
            Rua := response_json.Logradouro
            Bairro := response_json.Bairro
            Cidade := response_json.Localidade
            Estado := response_json.Uf }]
    body ++ deferred

/-- The values a run sends on its channel, in order. -/
def sends : List Effect → List CEP
  | [] => []
  | .send v :: es => v :: sends es
  | _ :: es => sends es

/-- Whether a run closes its channel. -/
def closes (es : List Effect) : Bool :=
  es.contains .close

/-! ## The coordinator -/

/-- One thing that happens while `main` is blocked in its `select`. -/
inductive Event where
  /-- An effect of the goroutine `fetch_cep_brasilapi(cep_string, ch_brasilapi)`. -/
  | brasilapi (e : Effect)
  /-- An effect of the goroutine `fetch_cep_viacep(cep_string, ch_viacep)`. -/
  | viacep (e : Effect)
  /-- The channel of `time.After(1 * time.Second)` delivers. -/
  | after
deriving DecidableEq

/-- What a receive `<-ch` gets from an effect of the sole writer of `ch`: the value
of a send, Go's zero value from a closed channel, nothing from any other effect. -/
def recv : Effect → Option CEP
  | .send v => some v
  | .close => some {}
  | _ => none

/-- The `case` of the `select` in `main` that runs. -/
inductive Case where
  /-- Go: `case cep := <-ch_brasilapi`. -/
  | ch_brasilapi (cep : CEP)
  /-- Go: `case cep := <-ch_viacep`. -/
  | ch_viacep (cep : CEP)
  /-- Go: `case <-time.After(1 * time.Second)`. -/
  | timeout
deriving DecidableEq

/-- Go: the `select` of `main`, over the events in the order in which it observes
them. It runs the case of the first event that makes a case ready; `none` is a
`select` that is still blocked when the events end. When several cases are ready at
once Go picks one of them at random: the order of the list is then the order of that
pick. -/
def select : List Event → Option Case
  | [] => none
  | .brasilapi e :: es =>
    match recv e with
    | some cep => some (.ch_brasilapi cep)
    | none => select es
  | .viacep e :: es =>
    match recv e with
    | some cep => some (.ch_viacep cep)
    | none => select es
  | .after :: _ => some .timeout

/-- Go: the body of the `case` that runs, as the effects of `main`. The builtin
`println` writes its operand and a newline to standard error; `fmt.Println(cep)`
writes `cep.String()` and a newline to standard output. -/
def Case.run : Case → List Effect
  | .ch_brasilapi cep =>
    [.stderr ("CEP fetched using BrasilAPI:\n" ++ "\n"), .stdout (cep.String ++ "\n")]
  | .ch_viacep cep =>
    [.stderr ("CEP fetched using ViaCEP:\n" ++ "\n"), .stdout (cep.String ++ "\n")]
  | .timeout => [.stderr ("Timeout after 1 second" ++ "\n")]

/-- Go: `func main()`, from the `select` on: the effects of `main` for the events
it observes, `none` while the `select` is blocked. -/
def main (events : List Event) : Option (List Effect) :=
  (select events).map Case.run

/-- The states the specification gives the coordinator. -/
inductive State where
  | Waiting
  | Resolved
  | TimedOut
deriving DecidableEq

/-- The coordinator state after the events: `Waiting` while the `select` is blocked,
`Resolved` when a channel case ran, `TimedOut` when the timer case ran. -/
def state (events : List Event) : State :=
  match select events with
  | none => .Waiting
  | some (.ch_brasilapi _) => .Resolved
  | some (.ch_viacep _) => .Resolved
  | some .timeout => .TimedOut

/-- The event is a send on one of the two channels. -/
def Event.isSend : Event → Bool
  | .brasilapi (.send _) => true
  | .viacep (.send _) => true
  | _ => false

/-- The event is the close of one of the two channels. -/
def Event.isClose : Event → Bool
  | .brasilapi .close => true
  | .viacep .close => true
  | _ => false

/-- The four shapes a run of an adapter can have. -/
inductive RunShape : List Effect → Prop
  /-- The `return` before the `defer`s: a diagnostic only. -/
  | abandoned (d : String) : RunShape [.stdout d]
  /-- A `return` after the `defer`s without diagnostic. -/
  | silent : RunShape [.bodyClose, .close]
  /-- A `return` after the `defer`s with a diagnostic. -/
  | failed (d : String) : RunShape [.stdout d, .bodyClose, .close]
  /-- The send, then the `defer`s. -/
  | sent (v : CEP) : RunShape [.send v, .bodyClose, .close]

/-! ## Fixtures -/

/-- A world in which every library call returns the given result, whatever its
operand. -/
def constLib (get : Except String String) (read : Except String String)
    (uerr : Except String BrasilApiError) (uresp : Except String BrasilApiResponse)
    (dec : Except String ViaCepResponse) : Lib String where
  httpGet _ := get
  readAll _ := read
  unmarshalBrasilApiError _ := uerr
  unmarshalBrasilApiResponse _ := uresp
  decodeViaCepResponse _ := dec

/-- A success record of BrasilAPI. -/
def fixtureBrasilApi : BrasilApiResponse :=
  { Cep := "08071072", State := "SP", City := "São Paulo",
    Neighborhood := "Jardim Helena", Street := "Rua Um" }

/-- A success record of ViaCEP. -/
def fixtureViaCep : ViaCepResponse :=
  { Cep := "08071-072", Logradouro := "Rua Um", Complemento := "", Bairro := "Jardim Helena",
    Localidade := "São Paulo", Uf := "SP", Ibge := "3550308", Gia := "1004", Ddd := "11",
    Siafi := "7107" }

/-- Both providers answer with a success record. -/
def okLib : Lib String :=
  constLib (.ok "response") (.ok "body") (.ok {}) (.ok fixtureBrasilApi) (.ok fixtureViaCep)

/-- BrasilAPI answers with a success record, the body of ViaCEP is not JSON. -/
def badViaCepLib : Lib String :=
  constLib (.ok "response") (.ok "body") (.ok {}) (.ok fixtureBrasilApi)
    (.error "invalid character '<' looking for beginning of value")

/-- BrasilAPI answers with a service error whose body also carries the success
fields. -/
def serviceErrorLib : Lib String :=
  constLib (.ok "response") (.ok "body")
    (.ok { Name := "CepPromiseError", Message := "erro", Type_ := "service_error" })
    (.ok fixtureBrasilApi) (.ok fixtureViaCep)

/-- The host of BrasilAPI cannot be reached, the body of ViaCEP is not JSON. -/
def brasilApiDownLib : Lib String where
  httpGet url :=
    if url = "https://brasilapi.com.br/api/cep/v1/08071072" then .error "dial tcp: lookup failed"
    else .ok "response"
  readAll _ := .ok "body"
  unmarshalBrasilApiError _ := .ok {}
  unmarshalBrasilApiResponse _ := .ok fixtureBrasilApi
  decodeViaCepResponse _ := .error "invalid character '<' looking for beginning of value"

/-- Both `http.Get` calls fail. -/
def noNetworkLib : Lib String :=
  constLib (.error "dial tcp: lookup failed") (.ok "body") (.ok {}) (.ok fixtureBrasilApi)
    (.ok fixtureViaCep)

/-- The events of a run in which the body of ViaCEP is not JSON and BrasilAPI answers
afterwards with a success record. -/
def closeThenSend : List Event :=
  (fetch_cep_viacep badViaCepLib "08071072").map .viacep
    ++ (fetch_cep_brasilapi badViaCepLib "08071072").map .brasilapi ++ [.after]

/-- The events of a run in which `http.Get` of BrasilAPI fails and the body of ViaCEP
is not JSON. -/
def closeBeforeDeadline : List Event :=
  (fetch_cep_brasilapi brasilApiDownLib "08071072").map .brasilapi
    ++ (fetch_cep_viacep brasilApiDownLib "08071072").map .viacep

/-- The events of a run in which `http.Get` of ViaCEP fails before anything else
happens. -/
def quietPrefix : List Event :=
  (fetch_cep_viacep noNetworkLib "08071072").map .viacep

/-- The Address BrasilAPI sends in the fixture world. -/
def fixtureCEP : CEP :=
  { Cep := "08071072", Rua := "Rua Um", Bairro := "Jardim Helena", Cidade := "São Paulo",
    Estado := "SP" }

/-! ## Lemmas -/

theorem Sprintf_brasilapi_url (cep : String) :
    Sprintf "https://brasilapi.com.br/api/cep/v1/%s" [cep]
      = "https://brasilapi.com.br/api/cep/v1/" ++ cep := by
  apply String.ext
  simp [Sprintf, sprintfAux]

theorem Sprintf_viacep_url (cep : String) :
    Sprintf "https://viacep.com.br/ws/%s/json/" [cep]
      = "https://viacep.com.br/ws/" ++ cep ++ "/json/" := by
  apply String.ext
  simp [Sprintf, sprintfAux]

theorem fetch_cep_brasilapi_shape {Resp : Type} (lib : Lib Resp) (cep : String) :
    RunShape (fetch_cep_brasilapi lib cep) := by
  unfold fetch_cep_brasilapi
  simp only []
  split
  · exact .abandoned _
  · split
    · exact .failed _
    · split
      · exact .failed _
      · split
        · exact .silent
        · split
          · exact .failed _
          · exact .sent _

theorem fetch_cep_viacep_shape {Resp : Type} (lib : Lib Resp) (cep : String) :
    RunShape (fetch_cep_viacep lib cep) := by
  unfold fetch_cep_viacep
  simp only []
  split
  · exact .abandoned _
  · split
    · exact .failed _
    · exact .sent _

theorem RunShape.sends_length_le {t : List Effect} (h : RunShape t) :
    (sends t).length ≤ 1 := by
  cases h <;> simp [sends]

theorem RunShape.no_send_after_close {t : List Effect} (h : RunShape t) :
    ∀ pre post, t = pre ++ .close :: post → sends post = [] := by
  intro pre post heq
  cases h <;> rcases pre with _ | ⟨a, _ | ⟨b, _ | ⟨c, pre⟩⟩⟩ <;> simp at heq <;>
    (try (obtain ⟨-, -, -, rfl⟩ := heq)) <;> (try rfl)

/-- Events that are no send, no close and not the timer leave the `select` blocked. -/
theorem select_append_of_quiet (pre rest : List Event)
    (hpre : ∀ e ∈ pre, e.isSend = false ∧ e.isClose = false ∧ e ≠ .after) :
    select (pre ++ rest) = select rest := by
  induction pre with
  | nil => rfl
  | cons e pre ih =>
    have he := hpre e (List.mem_cons_self e pre)
    have ih2 := ih fun x hx => hpre x (List.mem_cons_of_mem e hx)
    rcases e with eff | eff | _
    · cases eff <;> simp_all [select, recv, Event.isSend, Event.isClose]
    · cases eff <;> simp_all [select, recv, Event.isSend, Event.isClose]
    · simp at he

/-- After a successful `http.Get` every path of either adapter ends with the deferred
`close(ch)`. -/
theorem closes_of_httpGet_ok {Resp : Type} (lib : Lib Resp) (cep : String) :
    (∀ response, lib.httpGet ("https://brasilapi.com.br/api/cep/v1/" ++ cep) = .ok response →
        (fetch_cep_brasilapi lib cep).getLast? = some .close)
      ∧ (∀ response, lib.httpGet ("https://viacep.com.br/ws/" ++ cep ++ "/json/") = .ok response →
        (fetch_cep_viacep lib cep).getLast? = some .close) := by
  constructor
  · intro response hget
    simp [fetch_cep_brasilapi, Sprintf_brasilapi_url, hget]
  · intro response hget
    simp [fetch_cep_viacep, Sprintf_viacep_url, hget]

/-- When `http.Get` fails, a run of either adapter is the diagnostic alone: no send and
no `close(ch)`. -/
theorem open_of_httpGet_error {Resp : Type} (lib : Lib Resp) (cep err : String) :
    (lib.httpGet ("https://brasilapi.com.br/api/cep/v1/" ++ cep) = .error err →
        fetch_cep_brasilapi lib cep
          = [.stdout (Sprintf "Error fetching cep using BrasilAPI: %s\n" [err])])
      ∧ (lib.httpGet ("https://viacep.com.br/ws/" ++ cep ++ "/json/") = .error err →
        fetch_cep_viacep lib cep
          = [.stdout (Sprintf "Error fetching cep using ViaCEP: %s\n" [err])]) := by
  constructor
  · intro hget
    simp [fetch_cep_brasilapi, Sprintf_brasilapi_url, hget]
  · intro hget
    simp [fetch_cep_viacep, Sprintf_viacep_url, hget]

/-! ## Theorems -/

/-- C1: when the body of BrasilAPI decodes as the error shape with a type other than
`service_error` and decodes as the success shape `r`, `fetch_cep_brasilapi` sends
exactly one CEP, with `Cep = r.Cep`, `Rua = r.Street`, `Bairro = r.Neighborhood`,
`Cidade = r.City`, `Estado = r.State`. -/
theorem fetch_cep_brasilapi_success {Resp : Type} (lib : Lib Resp) (cep : String)
    (response : Resp) (data : String) (e : BrasilApiError) (r : BrasilApiResponse)
    (hget : lib.httpGet ("https://brasilapi.com.br/api/cep/v1/" ++ cep) = .ok response)
    (hread : lib.readAll response = .ok data)
    (herr : lib.unmarshalBrasilApiError data = .ok e)
    (htype : e.Type_ ≠ "service_error")
    (hresp : lib.unmarshalBrasilApiResponse data = .ok r) :
    sends (fetch_cep_brasilapi lib cep)
      = [{ Cep := r.Cep, Rua := r.Street, Bairro := r.Neighborhood, Cidade := r.City,
           Estado := r.State }] := by
  simp [fetch_cep_brasilapi, Sprintf_brasilapi_url, hget, hread, herr, htype, hresp, sends]

theorem fetch_cep_brasilapi_success_witness :
    sends (fetch_cep_brasilapi okLib "08071072")
      = [{ Cep := "08071072", Rua := "Rua Um", Bairro := "Jardim Helena",
           Cidade := "São Paulo", Estado := "SP" }] :=
  fetch_cep_brasilapi_success okLib "08071072" "response" "body" {} fixtureBrasilApi
    rfl rfl rfl (by decide) rfl

/-- C2: when the body of ViaCEP decodes as the success shape `r`, `fetch_cep_viacep`
sends exactly one CEP, with `Cep = r.Cep`, `Rua = r.Logradouro`, `Bairro = r.Bairro`,
`Cidade = r.Localidade`, `Estado = r.Uf`; a run whose decoded record differs only in
`Complemento`, `Ibge`, `Gia`, `Ddd`, `Siafi` sends the same CEP. -/
theorem fetch_cep_viacep_success {Resp : Type} (lib : Lib Resp) (cep : String)
    (response : Resp) (r : ViaCepResponse)
    (hget : lib.httpGet ("https://viacep.com.br/ws/" ++ cep ++ "/json/") = .ok response)
    (hdec : lib.decodeViaCepResponse response = .ok r) :
    sends (fetch_cep_viacep lib cep)
        = [{ Cep := r.Cep, Rua := r.Logradouro, Bairro := r.Bairro, Cidade := r.Localidade,
             Estado := r.Uf }]
      ∧ ∀ (lib2 : Lib Resp) (response2 : Resp) (complemento ibge gia ddd siafi : String),
          lib2.httpGet ("https://viacep.com.br/ws/" ++ cep ++ "/json/") = .ok response2 →
          lib2.decodeViaCepResponse response2
            = .ok { r with Complemento := complemento, Ibge := ibge, Gia := gia, Ddd := ddd,
                           Siafi := siafi } →
          sends (fetch_cep_viacep lib2 cep) = sends (fetch_cep_viacep lib cep) := by
  constructor
  · simp [fetch_cep_viacep, Sprintf_viacep_url, hget, hdec, sends]
  · intro lib2 response2 complemento ibge gia ddd siafi hget2 hdec2
    simp [fetch_cep_viacep, Sprintf_viacep_url, hget, hdec, hget2, hdec2, sends]

theorem fetch_cep_viacep_success_witness :
    sends (fetch_cep_viacep okLib "08071072")
        = [{ Cep := "08071-072", Rua := "Rua Um", Bairro := "Jardim Helena",
             Cidade := "São Paulo", Estado := "SP" }]
      ∧ ∀ (lib2 : Lib String) (response2 : String) (complemento ibge gia ddd siafi : String),
          lib2.httpGet ("https://viacep.com.br/ws/" ++ "08071072" ++ "/json/") = .ok response2 →
          lib2.decodeViaCepResponse response2
            = .ok { fixtureViaCep with Complemento := complemento, Ibge := ibge, Gia := gia,
                                       Ddd := ddd, Siafi := siafi } →
          sends (fetch_cep_viacep lib2 "08071072") = sends (fetch_cep_viacep okLib "08071072") :=
  fetch_cep_viacep_success okLib "08071072" "response" fixtureViaCep rfl rfl

/-- C3, at the failing input: when `http.Get` fails, neither adapter closes its
channel (and neither sends): the `return` of the error check comes before
`defer close(ch)`. -/
theorem transport_error_leaves_channel_open :
    closes (fetch_cep_brasilapi noNetworkLib "08071072") = false
      ∧ closes (fetch_cep_viacep noNetworkLib "08071072") = false
      ∧ fetch_cep_brasilapi noNetworkLib "08071072"
          = [.stdout "Error fetching cep using BrasilAPI: dial tcp: lookup failed\n"]
      ∧ fetch_cep_viacep noNetworkLib "08071072"
          = [.stdout "Error fetching cep using ViaCEP: dial tcp: lookup failed\n"] := by
  decide

/-- C6: when the body of BrasilAPI decodes as the error shape with type
`service_error`, `fetch_cep_brasilapi` sends nothing and closes its channel, whatever
decoding the body as the success shape would give. -/
theorem fetch_cep_brasilapi_service_error {Resp : Type} (lib : Lib Resp) (cep : String)
    (response : Resp) (data : String) (e : BrasilApiError)
    (hget : lib.httpGet ("https://brasilapi.com.br/api/cep/v1/" ++ cep) = .ok response)
    (hread : lib.readAll response = .ok data)
    (herr : lib.unmarshalBrasilApiError data = .ok e)
    (htype : e.Type_ = "service_error") :
    sends (fetch_cep_brasilapi lib cep) = []
      ∧ closes (fetch_cep_brasilapi lib cep) = true
      ∧ fetch_cep_brasilapi lib cep = [.bodyClose, .close] := by
  simp [fetch_cep_brasilapi, Sprintf_brasilapi_url, hget, hread, herr, htype, sends, closes]

theorem fetch_cep_brasilapi_service_error_witness :
    serviceErrorLib.unmarshalBrasilApiResponse "body" = .ok fixtureBrasilApi
      ∧ sends (fetch_cep_brasilapi serviceErrorLib "08071072") = []
      ∧ closes (fetch_cep_brasilapi serviceErrorLib "08071072") = true
      ∧ fetch_cep_brasilapi serviceErrorLib "08071072" = [.bodyClose, .close] :=
  ⟨rfl, fetch_cep_brasilapi_service_error serviceErrorLib "08071072" "response" "body"
    { Name := "CepPromiseError", Message := "erro", Type_ := "service_error" } rfl rfl rfl rfl⟩

/-- C7: on every path through either adapter, the run sends at most one value on its
channel and sends nothing after `close(ch)`. -/
theorem adapter_sends_at_most_once {Resp : Type} (lib : Lib Resp) (cep : String) :
    ((sends (fetch_cep_brasilapi lib cep)).length ≤ 1
        ∧ ∀ pre post, fetch_cep_brasilapi lib cep = pre ++ .close :: post → sends post = [])
      ∧ ((sends (fetch_cep_viacep lib cep)).length ≤ 1
        ∧ ∀ pre post, fetch_cep_viacep lib cep = pre ++ .close :: post → sends post = []) := by
  have hb := fetch_cep_brasilapi_shape lib cep
  have hv := fetch_cep_viacep_shape lib cep
  exact ⟨⟨hb.sends_length_le, hb.no_send_after_close⟩,
    ⟨hv.sends_length_le, hv.no_send_after_close⟩⟩

/-- C8: `c.String()` is the five lines `CEP: `, `Rua: `, `Bairro: `, `Cidade: `,
`Estado: `, in that order, each followed by its field unchanged and a newline. -/
theorem CEP_String_lines (c : CEP) :
    c.String = "CEP: " ++ c.Cep ++ "\n" ++ "Rua: " ++ c.Rua ++ "\n" ++ "Bairro: " ++ c.Bairro
      ++ "\n" ++ "Cidade: " ++ c.Cidade ++ "\n" ++ "Estado: " ++ c.Estado ++ "\n" := by
  apply String.ext
  simp [CEP.String, Sprintf, sprintfAux]

/-- C4 as stated fails: BrasilAPI sends a valid Address before the timer fires and
ViaCEP has closed its channel without a value before that; `main` prints the ViaCEP
header and the zero-value Address, not the Address of BrasilAPI. -/
theorem first_send_claim_counterexample :
    closeThenSend
        = [.viacep (.stdout ("Error decoding response from ViaCEP: "
              ++ "invalid character '<' looking for beginning of value\n")),
            .viacep .bodyClose, .viacep .close]
          ++ .brasilapi (.send { Cep := "08071072", Rua := "Rua Um", Bairro := "Jardim Helena",
                                 Cidade := "São Paulo", Estado := "SP" })
          :: [.brasilapi .bodyClose, .brasilapi .close, .after]
      ∧ main closeThenSend
          = some [.stderr "CEP fetched using ViaCEP:\n\n",
                  .stdout "CEP: \nRua: \nBairro: \nCidade: \nEstado: \n\n"]
      ∧ main closeThenSend
          ≠ some [.stderr "CEP fetched using BrasilAPI:\n\n",
                  .stdout ("CEP: 08071072\nRua: Rua Um\nBairro: Jardim Helena\n"
                    ++ "Cidade: São Paulo\nEstado: SP\n\n")] := by
  decide

/-- C4, amended: when the send of an Address by one adapter is the first send or close
on either channel and comes before the timer fires, `main` prints that adapter's
header and exactly that Address, whatever events follow. -/
theorem first_send_wins (pre post : List Event) (v : CEP)
    (hpre : ∀ e ∈ pre, e.isSend = false ∧ e.isClose = false ∧ e ≠ .after) :
    main (pre ++ .brasilapi (.send v) :: post)
        = some [.stderr "CEP fetched using BrasilAPI:\n\n", .stdout (v.String ++ "\n")]
      ∧ main (pre ++ .viacep (.send v) :: post)
        = some [.stderr "CEP fetched using ViaCEP:\n\n", .stdout (v.String ++ "\n")] := by
  constructor <;>
    · simp only [main, select_append_of_quiet pre _ hpre, select, recv, Option.map, Case.run]
      rfl

theorem first_send_wins_witness :
    (∀ e ∈ quietPrefix, e.isSend = false ∧ e.isClose = false ∧ e ≠ .after)
      ∧ main (quietPrefix ++ .brasilapi (.send fixtureCEP)
                :: [.brasilapi .bodyClose, .brasilapi .close, .viacep .close, .after])
          = some [.stderr "CEP fetched using BrasilAPI:\n\n", .stdout (fixtureCEP.String ++ "\n")]
      ∧ main (quietPrefix ++ .viacep (.send fixtureCEP)
                :: [.brasilapi .bodyClose, .brasilapi .close, .viacep .close, .after])
          = some [.stderr "CEP fetched using ViaCEP:\n\n", .stdout (fixtureCEP.String ++ "\n")] :=
  ⟨by decide,
    first_send_wins quietPrefix [.brasilapi .bodyClose, .brasilapi .close, .viacep .close, .after]
      fixtureCEP (by decide)⟩

/-- C5 as stated fails: neither adapter sends an Address before the timer fires, and
`main` ends in `Resolved`, printing the ViaCEP header and the zero-value Address. -/
theorem timeout_claim_counterexample :
    (∀ e ∈ closeBeforeDeadline, e.isSend = false ∧ e ≠ .after)
      ∧ state (closeBeforeDeadline ++ [.after]) = .Resolved
      ∧ state (closeBeforeDeadline ++ [.after]) ≠ .TimedOut
      ∧ main (closeBeforeDeadline ++ [.after])
          = some [.stderr "CEP fetched using ViaCEP:\n\n",
                  .stdout "CEP: \nRua: \nBairro: \nCidade: \nEstado: \n\n"] := by
  decide

/-- C5, amended: when neither adapter sends an Address nor closes its channel before
the timer fires, `main` ends in `TimedOut`: it prints the timeout message and nothing
else. -/
theorem timeout_when_channels_quiet (pre post : List Event)
    (hpre : ∀ e ∈ pre, e.isSend = false ∧ e.isClose = false ∧ e ≠ .after) :
    state (pre ++ .after :: post) = .TimedOut
      ∧ main (pre ++ .after :: post) = some [.stderr "Timeout after 1 second\n"] := by
  constructor
  · simp only [state, select_append_of_quiet pre _ hpre, select]
  · simp only [main, select_append_of_quiet pre _ hpre, select, Option.map, Case.run]
    rfl

theorem timeout_when_channels_quiet_witness :
    (∀ e ∈ quietPrefix, e.isSend = false ∧ e.isClose = false ∧ e ≠ .after)
      ∧ state (quietPrefix ++ .after :: [.brasilapi (.send fixtureCEP)]) = .TimedOut
      ∧ main (quietPrefix ++ .after :: [.brasilapi (.send fixtureCEP)])
          = some [.stderr "Timeout after 1 second\n"] :=
  ⟨by decide, timeout_when_channels_quiet quietPrefix [.brasilapi (.send fixtureCEP)] (by decide)⟩

/-- C9: when the close of a channel without a value is the first send or close the
`select` observes and comes before the timer, `main` ends in `Resolved` and prints
that provider's header followed by the rendering of the zero-value Address. -/
theorem close_first_resolves (pre post : List Event)
    (hpre : ∀ e ∈ pre, e.isSend = false ∧ e.isClose = false ∧ e ≠ .after) :
    (state (pre ++ .brasilapi .close :: post) = .Resolved
        ∧ main (pre ++ .brasilapi .close :: post)
          = some [.stderr "CEP fetched using BrasilAPI:\n\n",
                  .stdout "CEP: \nRua: \nBairro: \nCidade: \nEstado: \n\n"])
      ∧ (state (pre ++ .viacep .close :: post) = .Resolved
        ∧ main (pre ++ .viacep .close :: post)
          = some [.stderr "CEP fetched using ViaCEP:\n\n",
                  .stdout "CEP: \nRua: \nBairro: \nCidade: \nEstado: \n\n"]) := by
  refine ⟨⟨?_, ?_⟩, ⟨?_, ?_⟩⟩
  · simp only [state, select_append_of_quiet pre _ hpre, select, recv]
  · simp only [main, select_append_of_quiet pre _ hpre, select, recv, Option.map, Case.run]
    decide
  · simp only [state, select_append_of_quiet pre _ hpre, select, recv]
  · simp only [main, select_append_of_quiet pre _ hpre, select, recv, Option.map, Case.run]
    decide

theorem close_first_resolves_witness :
    (∀ e ∈ quietPrefix, e.isSend = false ∧ e.isClose = false ∧ e ≠ .after)
      ∧ (state (quietPrefix ++ .brasilapi .close :: [.viacep (.send fixtureCEP), .after])
            = .Resolved
          ∧ main (quietPrefix ++ .brasilapi .close :: [.viacep (.send fixtureCEP), .after])
            = some [.stderr "CEP fetched using BrasilAPI:\n\n",
                    .stdout "CEP: \nRua: \nBairro: \nCidade: \nEstado: \n\n"])
      ∧ (state (quietPrefix ++ .viacep .close :: [.viacep (.send fixtureCEP), .after])
            = .Resolved
          ∧ main (quietPrefix ++ .viacep .close :: [.viacep (.send fixtureCEP), .after])
            = some [.stderr "CEP fetched using ViaCEP:\n\n",
                    .stdout "CEP: \nRua: \nBairro: \nCidade: \nEstado: \n\n"]) :=
  ⟨by decide,
    close_first_resolves quietPrefix [.viacep (.send fixtureCEP), .after] (by decide)⟩

/-- C10: once `http.Get` has succeeded, `fetch_cep_viacep` sends nothing exactly when
decoding the body fails; for every record the body decodes to it sends exactly one
Address, the Address with five empty fields for the record with no field set. -/
theorem fetch_cep_viacep_sends_iff_decodes {Resp : Type} (lib : Lib Resp) (cep : String)
    (response : Resp)
    (hget : lib.httpGet ("https://viacep.com.br/ws/" ++ cep ++ "/json/") = .ok response) :
    (sends (fetch_cep_viacep lib cep) = []
        ↔ ∃ err, lib.decodeViaCepResponse response = .error err)
      ∧ (∀ r, lib.decodeViaCepResponse response = .ok r →
          sends (fetch_cep_viacep lib cep)
            = [{ Cep := r.Cep, Rua := r.Logradouro, Bairro := r.Bairro,
                 Cidade := r.Localidade, Estado := r.Uf }])
      ∧ (lib.decodeViaCepResponse response = .ok {} →
          sends (fetch_cep_viacep lib cep)
            = [{ Cep := "", Rua := "", Bairro := "", Cidade := "", Estado := "" }]) := by
  refine ⟨?_, ?_, ?_⟩
  · cases hdec : lib.decodeViaCepResponse response <;>
      simp [fetch_cep_viacep, Sprintf_viacep_url, hget, hdec, sends]
  · intro r hdec
    simp [fetch_cep_viacep, Sprintf_viacep_url, hget, hdec, sends]
  · intro hdec
    simp [fetch_cep_viacep, Sprintf_viacep_url, hget, hdec, sends]

theorem fetch_cep_viacep_sends_iff_decodes_witness :
    (sends (fetch_cep_viacep badViaCepLib "08071072") = []
        ↔ ∃ err, badViaCepLib.decodeViaCepResponse "response" = .error err)
      ∧ (∀ r, badViaCepLib.decodeViaCepResponse "response" = .ok r →
          sends (fetch_cep_viacep badViaCepLib "08071072")
            = [{ Cep := r.Cep, Rua := r.Logradouro, Bairro := r.Bairro,
                 Cidade := r.Localidade, Estado := r.Uf }])
      ∧ (badViaCepLib.decodeViaCepResponse "response" = .ok {} →
          sends (fetch_cep_viacep badViaCepLib "08071072")
            = [{ Cep := "", Rua := "", Bairro := "", Cidade := "", Estado := "" }]) :=
  fetch_cep_viacep_sends_iff_decodes badViaCepLib "08071072" "response" rfl

end CepRace
